import Mathlib

/-!
Verification development for the invasive-species spread simulator
(`simulation_service.py`, the service variant) and its utility variant
(`run_simulation.py`).  Grids are modelled as total functions
`ℤ → ℤ → ℝ` that are zero outside the raster bounds; machine floats are
modelled as real numbers; the NumPy random draws consumed by a run are
passed in explicitly as streams of real numbers.
-/

namespace Invasores

noncomputable section

/-- A raster grid: a real sample at every integer pixel index.  Grids taking
part in a run of height `h` and width `w` are kept zero outside
`[0,h) × [0,w)` (zero-fill boundary). -/
abbrev Grid := ℤ → ℤ → ℝ

/-- Integer grid (land-cover class codes). -/
abbrev ClassGrid := ℤ → ℤ → ℤ

/-- Binary occupancy grid. -/
abbrev OccGrid := ℤ → ℤ → ℕ

/-- Pixel `(i, j)` lies inside an `h × w` raster. -/
def inBounds (h w : ℕ) (i j : ℤ) : Prop :=
  0 ≤ i ∧ i < h ∧ 0 ≤ j ∧ j < w

instance (h w : ℕ) (i j : ℤ) : Decidable (inBounds h w i j) := by
  unfold inBounds; infer_instance

/-- Zero a grid outside the raster bounds (NumPy arrays only exist
in-bounds; convolution uses zero fill). -/
def clipGrid (h w : ℕ) (A : Grid) : Grid :=
  fun i j => if inBounds h w i j then A i j else 0

/-- Python `int(x)`: truncation toward zero. -/
def pyInt (x : ℝ) : ℤ :=
  if 0 ≤ x then ⌊x⌋ else ⌈x⌉

/-- The ε guard used by both growth variants. -/
def eps : ℝ := 1e-6

/-! ### Species parameters

`run_dynamic_simulation` reads its parameters from a dict with
`dict.get(key, default)`; a missing key is an `Option.none` here. -/

/-- The species-parameter record as consumed by the simulators: every
field optional, mirroring Python dict lookups. -/
structure SpeciesParams where
  maxGrowthRate : Option ℝ
  dispersalKernel : Option ℝ
  mobility : Option String
  jump_prob : Option ℝ
  initial_population : Option ℝ
  timesteps : Option ℕ
  dt_years : Option ℝ
  max_dispersal_km : Option ℝ
  long_distance_fraction : Option ℝ
  habitat_pref : Option (String → Option ℝ)
  altitude_tolerance : Option (ℝ × ℝ)
  climate_tolerance : Option (String → Option (ℝ × ℝ))

/-- A record with every key missing. -/
def emptyParams : SpeciesParams :=
  ⟨none, none, none, none, none, none, none, none, none, none, none, none⟩

/-- Service variant: `species_params.get("maxGrowthRate", 0.1)`. -/
def svcGrowthRate (p : SpeciesParams) : ℝ := p.maxGrowthRate.getD 0.1

/-- Service variant: `species_params.get("dispersalKernel", 500)`. -/
def svcSigmaM (p : SpeciesParams) : ℝ := p.dispersalKernel.getD 500

/-- Service variant: `species_params.get("mobility", "terrestrial")`. -/
def svcMobility (p : SpeciesParams) : String := p.mobility.getD "terrestrial"

/-- Service variant: `species_params.get("jump_prob", 0.0)`. -/
def svcJumpProb (p : SpeciesParams) : ℝ := p.jump_prob.getD 0.0

/-- Service variant: `species_params.get("initial_population", 0.01)`. -/
def svcInitPop (p : SpeciesParams) : ℝ := p.initial_population.getD 0.01

/-- Service variant: `species_params.get("timesteps", 20)`. -/
def svcTimesteps (p : SpeciesParams) : ℕ := p.timesteps.getD 20

/-- Service variant: `species_params.get("dt_years", 1.0)`. -/
def svcDt (p : SpeciesParams) : ℝ := p.dt_years.getD 1.0

/-- Service variant: `species_params.get("max_dispersal_km", 10.0)`. -/
def svcMaxDispKm (p : SpeciesParams) : ℝ := p.max_dispersal_km.getD 10.0

/-- Utility variant: `params.get("maxGrowthRate", 0.1)` (single-quoted in the source). -/
def utilGrowthRate (p : SpeciesParams) : ℝ := p.maxGrowthRate.getD 0.1

/-- Utility variant: `params.get("mobility", "ground")`. -/
def utilMobility (p : SpeciesParams) : String := p.mobility.getD "ground"

/-- Utility variant: `params.get("long_distance_fraction", 0.0)`. -/
def utilJumpFrac (p : SpeciesParams) : ℝ := p.long_distance_fraction.getD 0.0

/-! ### Land-cover tables (`simulation_service.py` top level) -/

/-- `BASE_CLASS_WEIGHTS`: base weight per Copernicus land-cover code;
codes absent from the table yield `none` (the scoring loop leaves the
0.1 fill value there). -/
def baseClassWeight (c : ℤ) : Option ℝ :=
  if c = 111 then some 0.9 else if c = 113 then some 0.8 else
  if c = 112 then some 0.85 else if c = 114 then some 0.75 else
  if c = 115 then some 0.8 else if c = 116 then some 0.5 else
  if c = 121 then some 0.7 else if c = 123 then some 0.65 else
  if c = 122 then some 0.7 else if c = 124 then some 0.6 else
  if c = 125 then some 0.6 else if c = 126 then some 0.5 else
  if c = 20 then some 0.4 else if c = 30 then some 0.4 else
  if c = 40 then some 0.3 else if c = 50 then some 0.0 else
  if c = 60 then some 0.2 else if c = 70 then some 0.1 else
  if c = 80 then some 0.0 else if c = 90 then some 0.3 else
  if c = 100 then some 0.2 else none

/-- `CODE_TO_CAT`: Copernicus code → habitat category.  Note that code 60
is absent from this table and code 50 is the urban code. -/
def codeToCat (c : ℤ) : Option String :=
  if c = 111 ∨ c = 113 ∨ c = 112 ∨ c = 114 ∨ c = 115 ∨ c = 116 then
    some "forest_closed"
  else if c = 121 ∨ c = 123 ∨ c = 122 ∨ c = 124 ∨ c = 125 ∨ c = 126 then
    some "forest_open"
  else if c = 20 then some "shrubs"
  else if c = 30 then some "herbaceous"
  else if c = 40 then some "cropland"
  else if c = 50 then some "urban"
  else if c = 70 then some "snow_ice"
  else if c = 80 then some "water"
  else if c = 90 then some "wetland"
  else if c = 100 then some "moss_lichen"
  else none

/-! ### Barrier construction

Both variants build the barrier the same way:
`barrier[class == 80] = 1.0; barrier[class == 60] = 0.7`, zero fill. -/

/-- Barrier grid from the class grid (both variants, lines 376-379 of the
service and 64-68 of the utility). -/
def buildBarrier (cls : ClassGrid) : Grid :=
  fun i j => if cls i j = 80 then 1.0 else if cls i j = 60 then 0.7 else 0.0

/-! ### Suitability construction -/

/-- `np.clip(x, 0.0, 1.0)`. -/
def clip01 (x : ℝ) : ℝ := min (max x 0) 1

/-- Habitat-preference multiplier used by the service variant:
`species_pref.get(CODE_TO_CAT.get(code), 1.0)`. -/
def prefMul (pref : String → Option ℝ) (c : ℤ) : ℝ :=
  match codeToCat c with
  | some cat => (pref cat).getD 1.0
  | none => 1.0

/-- Service class score: fill value 0.1, overwritten by
`BASE_CLASS_WEIGHTS[code] * pref` for codes in the weight table. -/
def sClassSvc (pref : String → Option ℝ) (cls : ClassGrid) : Grid :=
  fun i j =>
    match baseClassWeight (cls i j) with
    | some w => w * prefMul pref (cls i j)
    | none => 0.1

/-- Service elevation score: triangular peak at the midpoint of the
altitude tolerance, clipped, then zeroed outside the tolerance window. -/
def sElSvc (altMin altMax : ℝ) (elev : Grid) : Grid :=
  fun i j =>
    let s := clip01 (1 - |(elev i j - 0.5 * (altMin + altMax)) /
      (0.5 * (altMax - altMin) + 1e-6)|)
    if altMin ≤ elev i j ∧ elev i j ≤ altMax then s else 0

/-- Fixed normalization range per bioclimatic variable
(service variant; note bio12 tops out at 3800). -/
def climRangeSvc (var : String) : ℝ × ℝ :=
  if var = "bio1" then (-10.0, 45.0)
  else if var = "bio5" then (0.0, 55.0)
  else if var = "bio6" then (-20.0, 30.0)
  else if var = "bio12" then (0.0, 3800.0)
  else (0.0, 100.0)

/-- Service per-variable climate score with tolerance masking. -/
def sBioVarSvc (tol : String → Option (ℝ × ℝ)) (var : String) (arr : Grid) :
    Grid :=
  fun i j =>
    let vr := climRangeSvc var
    let s := clip01 ((arr i j - vr.1) / (vr.2 - vr.1))
    let t := (tol var).getD vr
    if t.1 ≤ arr i j ∧ arr i j ≤ t.2 then s else 0

/-- Service combined bioclimatic score (weights 0.25/0.20/0.20/0.25/0.05,
clipped). -/
def sBioclimSvc (tol : String → Option (ℝ × ℝ))
    (bio1 bio5 bio6 bio12 bio15 : Grid) : Grid :=
  fun i j => clip01
    (0.25 * sBioVarSvc tol "bio1" bio1 i j +
     0.20 * sBioVarSvc tol "bio5" bio5 i j +
     0.20 * sBioVarSvc tol "bio6" bio6 i j +
     0.25 * sBioVarSvc tol "bio12" bio12 i j +
     0.05 * sBioVarSvc tol "bio15" bio15 i j)

/-- Service suitability:
`clip(0.3 * s_class + 0.3 * s_el + 0.4 * s_bioclim, 0, 1)`. -/
def suitabilitySvc (p : SpeciesParams) (cls : ClassGrid) (elev : Grid)
    (bio1 bio5 bio6 bio12 bio15 : Grid) : Grid :=
  fun i j =>
    let pref := p.habitat_pref.getD (fun _ => none)
    let alt := p.altitude_tolerance.getD (0.0, 3000.0)
    let tol := p.climate_tolerance.getD (fun _ => none)
    clip01
      (0.3 * sClassSvc pref cls i j +
       0.3 * sElSvc alt.1 alt.2 elev i j +
       0.4 * sBioclimSvc tol bio1 bio5 bio6 bio12 bio15 i j)

/-- Utility class score: same weight table, no species preference. -/
def sClassUtil (cls : ClassGrid) : Grid :=
  fun i j => (baseClassWeight (cls i j)).getD 0.1

/-- Utility elevation score: fixed [0, 3000] range, no mask, no ε. -/
def sElUtil (elev : Grid) : Grid :=
  fun i j => clip01 (1 - |(elev i j - 1500.0) / 1500.0|)

/-- Fixed normalization range per variable (utility variant; bio12 tops
out at 3000). -/
def climRangeUtil (var : String) : ℝ × ℝ :=
  if var = "bio1" then (-10.0, 45.0)
  else if var = "bio5" then (0.0, 55.0)
  else if var = "bio6" then (-20.0, 30.0)
  else if var = "bio12" then (0.0, 3000.0)
  else (0.0, 100.0)

/-- Utility per-variable climate score (no tolerance masking). -/
def sBioVarUtil (var : String) (arr : Grid) : Grid :=
  fun i j =>
    let vr := climRangeUtil var
    clip01 ((arr i j - vr.1) / (vr.2 - vr.1))

/-- Utility bioclimatic score: five weighted components plus a sixth
warm/cold range term, not clipped after summation. -/
def sBioclimUtil (bio1 bio5 bio6 bio12 bio15 : Grid) : Grid :=
  fun i j =>
    0.25 * sBioVarUtil "bio1" bio1 i j +
    0.20 * sBioVarUtil "bio5" bio5 i j +
    0.20 * sBioVarUtil "bio6" bio6 i j +
    0.25 * sBioVarUtil "bio12" bio12 i j +
    0.05 * sBioVarUtil "bio15" bio15 i j +
    0.05 * clip01 ((bio5 i j - bio6 i j) / 75.0)

/-- Utility suitability (same composite weights and final clip). -/
def suitabilityUtil (cls : ClassGrid) (elev : Grid)
    (bio1 bio5 bio6 bio12 bio15 : Grid) : Grid :=
  fun i j =>
    clip01
      (0.3 * sClassUtil cls i j +
       0.3 * sElUtil elev i j +
       0.4 * sBioclimUtil bio1 bio5 bio6 bio12 bio15 i j)

/-! ### Dispersal kernel -/

/-- Fixed pixel size (meters per pixel) assumed by both variants. -/
def pixSize : ℝ := 100.0

/-- Unnormalized Gaussian weight at offset `(dp, dq)`:
`exp(-(dx² + dy²) / (2 σ_px²))`. -/
def gauss (sigmaPx : ℝ) (dp dq : ℤ) : ℝ :=
  Real.exp (-(((dp : ℝ)) ^ 2 + ((dq : ℝ)) ^ 2) / (2 * sigmaPx ^ 2))

/-- Offsets covered by a kernel of radius `rad`. -/
def kernOffsets (rad : ℤ) : Finset ℤ := Finset.Icc (-rad) rad

/-- Sum of the unnormalized Gaussian over the kernel window. -/
def gaussSum (sigmaPx : ℝ) (rad : ℤ) : ℝ :=
  ∑ dp ∈ kernOffsets rad, ∑ dq ∈ kernOffsets rad, gauss sigmaPx dp dq

/-- The normalized Gaussian kernel (`kernel /= kernel.sum()`). -/
def baseKernel (sigmaPx : ℝ) (rad : ℤ) : ℤ → ℤ → ℝ :=
  fun dp dq => gauss sigmaPx dp dq / gaussSum sigmaPx rad

/-- Service effective σ: doubled for mobility `"aerial"`, unchanged for
every other mobility string. -/
def sigmaEffSvc (mobility : String) (sigmaM : ℝ) : ℝ :=
  if mobility = "aerial" then sigmaM * 2.0 else sigmaM

/-- Service kernel radius: `max(int(3 * sigma_px), 1)`. -/
def radSvc (mobility : String) (sigmaM : ℝ) : ℤ :=
  max (pyInt (3 * (sigmaEffSvc mobility sigmaM / pixSize))) 1

/-- Service kernel: plain normalized Gaussian at the effective σ. -/
def kernelSvc (mobility : String) (sigmaM : ℝ) : ℤ → ℤ → ℝ :=
  baseKernel (sigmaEffSvc mobility sigmaM / pixSize) (radSvc mobility sigmaM)

/-- Utility kernel radius: `int(3 * sigma_px)`, not clamped. -/
def radUtil (sigmaM : ℝ) : ℤ := pyInt (3 * (sigmaM / pixSize))

/-- Utility blended kernel numerator for mobility `"flight"`:
`0.8 * base_kernel + 0.2 * wide`, `wide` the normalized 3σ kernel on the
same window. -/
def blendRawUtil (sigmaM : ℝ) : ℤ → ℤ → ℝ :=
  fun dp dq =>
    0.8 * baseKernel (sigmaM / pixSize) (radUtil sigmaM) dp dq +
    0.2 * baseKernel (sigmaM / pixSize * 3) (radUtil sigmaM) dp dq

/-- Sum of the blended kernel before its final renormalization. -/
def blendSumUtil (sigmaM : ℝ) : ℝ :=
  ∑ dp ∈ kernOffsets (radUtil sigmaM), ∑ dq ∈ kernOffsets (radUtil sigmaM),
    blendRawUtil sigmaM dp dq

/-- Utility kernel: blended and renormalized for `"flight"`, otherwise
the plain base kernel. -/
def kernelUtil (mobility : String) (sigmaM : ℝ) : ℤ → ℤ → ℝ :=
  if mobility = "flight" then
    fun dp dq => blendRawUtil sigmaM dp dq / blendSumUtil sigmaM
  else baseKernel (sigmaM / pixSize) (radUtil sigmaM)

/-! ### Convolution and the per-step transition -/

/-- `scipy.signal.convolve2d(A, K, mode="same", boundary="fill",
fillvalue=0)` for a `(2 rad + 1)²` kernel `K` given by offsets, applied
to a grid that is zero outside bounds. -/
def convSame (rad : ℤ) (K : ℤ → ℤ → ℝ) (A : Grid) : Grid :=
  fun i j =>
    ∑ dp ∈ kernOffsets rad, ∑ dq ∈ kernOffsets rad,
      K dp dq * A (i - dp) (j - dq)

/-- Service growth stage:
`D2 = D + r * suitability * D * (1 - D / (suitability + 1e-6)) * dt`. -/
def growthStepSvc (r dt : ℝ) (suit : Grid) (D : Grid) : Grid :=
  fun i j => D i j + r * suit i j * D i j * (1 - D i j / (suit i j + eps)) * dt

/-- Utility growth stage:
`D2 = D + r * D * (1 - D / (K + 1e-6)) * dt` with `K = suitability`. -/
def growthStepUtil (r dt : ℝ) (suit : Grid) (D : Grid) : Grid :=
  fun i j => D i j + r * D i j * (1 - D i j / (suit i j + eps)) * dt

/-- The growth formula exactly as the specification states it (identical
to the utility growth stage, with no suitability prefactor). -/
def specGrowthStep (r dt : ℝ) (suit : Grid) (D : Grid) : Grid :=
  fun i j => D i j + r * D i j * (1 - D i j / (suit i j + eps)) * dt

/-- Dispersal stage (both variants):
`D_next = D2 + conv(D2, kernel) * suitability * (1 - barrier)`. -/
def disperseStep (rad : ℤ) (K : ℤ → ℤ → ℝ) (suit barrier : Grid)
    (D2 : Grid) : Grid :=
  fun i j => D2 i j + convSame rad K D2 i j * suit i j * (1 - barrier i j)

/-- Maximum jump radius in pixels:
`max(int(max_disp_m / pix_size_m), 1)`. -/
def maxDispPx (maxDispKm : ℝ) : ℤ :=
  max (pyInt (maxDispKm * 1000.0 / pixSize)) 1

/-- Row of the sampled jump target: polar offset from the seed row
(`di = int(r_px * sin(theta))`). -/
def jumpRow (maxDispKm : ℝ) (row0 : ℤ) (u2 u3 : ℝ) : ℤ :=
  row0 + pyInt (u2 * (maxDispPx maxDispKm : ℝ) *
    Real.sin (u3 * (2 * Real.pi)))

/-- Column of the sampled jump target
(`dj = int(r_px * cos(theta))`). -/
def jumpCol (maxDispKm : ℝ) (col0 : ℤ) (u2 u3 : ℝ) : ℤ :=
  col0 + pyInt (u2 * (maxDispPx maxDispKm : ℝ) *
    Real.cos (u3 * (2 * Real.pi)))

/-- Service long-distance jump: for mobility `"aerial"`, with probability
`jump_prob` (draw `u1`), add `init_pop` at a polar offset from the fixed
seed pixel `(row0, col0)`; out-of-bounds targets are dropped silently. -/
def jumpSvc (mobility : String) (jumpProb maxDispKm initPop : ℝ)
    (h w : ℕ) (row0 col0 : ℤ) (u1 u2 u3 : ℝ) (D : Grid) : Grid :=
  if mobility = "aerial" ∧ u1 < jumpProb then
    let ni : ℤ := jumpRow maxDispKm row0 u2 u3
    let nj : ℤ := jumpCol maxDispKm col0 u2 u3
    if inBounds h w ni nj then
      fun i j => if i = ni ∧ j = nj then D i j + initPop else D i j
    else D
  else D

/-- Total density over the raster (`D_next.sum()`). -/
def gridSum (h w : ℕ) (D : Grid) : ℝ :=
  ∑ i ∈ Finset.range h, ∑ j ∈ Finset.range w, D (i : ℤ) (j : ℤ)

/-- Utility long-distance jump: for mobility `"flight"` with
`jump_frac > 0`, draw `n_jump = int(total * jump_frac)` target cells
(stream `cells`) and add `total * jump_frac / max(n_jump, 1)` at each.
A negative `n_jump` (possible when the grid total is negative) makes
`np.random.randint(0, h, n_jump)` raise `ValueError`; that error path
is `none`. -/
def jumpUtil (mobility : String) (frac : ℝ) (h w : ℕ)
    (cells : ℕ → ℤ × ℤ) (D : Grid) : Option Grid :=
  if mobility = "flight" ∧ 0 < frac then
    let total := gridSum h w D
    let nj : ℤ := pyInt (total * frac)
    if nj < 0 then none
    else
      some (fun i j => D i j +
        ∑ k ∈ Finset.range nj.toNat,
          if (cells k).1 = i ∧ (cells k).2 = j then
            total * frac / ((max nj 1 : ℤ) : ℝ) else 0)
  else some D

/-- One full service step: growth, dispersal, optional aerial jump. -/
def stepSvc (h w : ℕ) (rad : ℤ) (K : ℤ → ℤ → ℝ) (suit barrier : Grid)
    (r dt : ℝ) (mobility : String) (jumpProb maxDispKm initPop : ℝ)
    (row0 col0 : ℤ) (draws : ℝ × ℝ × ℝ) (D : Grid) : Grid :=
  let D2 := clipGrid h w (growthStepSvc r dt suit D)
  let Dn := clipGrid h w (disperseStep rad K suit barrier D2)
  jumpSvc mobility jumpProb maxDispKm initPop h w row0 col0
    draws.1 draws.2.1 draws.2.2 Dn

/-- Occupancy threshold grid: `(D > threshold).astype(uint8)`. -/
def occGrid (threshold : ℝ) (D : Grid) : OccGrid :=
  fun i j => if threshold < D i j then 1 else 0

/-! ### Seeding and the run loop -/

/-- The affine transform coefficients the service reads:
`a` = pixel width, `c` = origin x, `e` = (negative) pixel height,
`f` = origin y. -/
structure Affine where
  a : ℝ
  c : ℝ
  e : ℝ
  f : ℝ

/-- Service seed column: `int((centroid.x - transform.c) / transform.a)`
(Python `int`, truncation toward zero). -/
def svcCol0 (tr : Affine) (cx : ℝ) : ℤ := pyInt ((cx - tr.c) / tr.a)

/-- Service seed row: `int((transform.f - centroid.y) / abs(transform.e))`. -/
def svcRow0 (tr : Affine) (cy : ℝ) : ℤ := pyInt ((tr.f - cy) / |tr.e|)

/-- Seed column as the specification words it: a floor, not a
truncation.  Kept separate so the two can be compared. -/
def specCol0 (tr : Affine) (cx : ℝ) : ℤ := ⌊(cx - tr.c) / tr.a⌋

/-- Seed row as the specification words it (floor). -/
def specRow0 (tr : Affine) (cy : ℝ) : ℤ := ⌊(tr.f - cy) / |tr.e|⌋

/-- Initial density: `init_pop` at the seed pixel when it is in bounds,
otherwise the all-zero field (no error). -/
def seedDensity (h w : ℕ) (row0 col0 : ℤ) (initPop : ℝ) : Grid :=
  fun i j =>
    if inBounds h w row0 col0 ∧ i = row0 ∧ j = col0 then initPop else 0

/-- Initial occupancy: 1 at the seed pixel when it is in bounds. -/
def seedOcc (h w : ℕ) (row0 col0 : ℤ) : OccGrid :=
  fun i j => if inBounds h w row0 col0 ∧ i = row0 ∧ j = col0 then 1 else 0

/-- The service step loop: `n` remaining steps starting at step index
`t`, one occupancy snapshot emitted per step. -/
def runAux (step : ℕ → Grid → Grid) (threshold : ℝ) :
    ℕ → ℕ → Grid → List OccGrid
  | _, 0, _ => []
  | t, n + 1, D =>
      let Dn := step t D
      occGrid threshold Dn :: runAux step threshold (t + 1) n Dn

/-- `run_dynamic_simulation` of the service variant, after suitability
and barrier were built: extract parameters with their defaults, locate
the seed pixel from the polygon centroid, build the kernel, seed, then
iterate `T` steps.  The random draws of step `t` are `draws t`. -/
def runService (p : SpeciesParams) (suit barrier : Grid) (h w : ℕ)
    (tr : Affine) (cx cy : ℝ) (draws : ℕ → ℝ × ℝ × ℝ) : List OccGrid :=
  let r := svcGrowthRate p
  let mobility := svcMobility p
  let row0 := svcRow0 tr cy
  let col0 := svcCol0 tr cx
  let rad := radSvc mobility (svcSigmaM p)
  let K := kernelSvc mobility (svcSigmaM p)
  let D0 := seedDensity h w row0 col0 (svcInitPop p)
  runAux
    (fun t D => stepSvc h w rad K suit barrier r (svcDt p) mobility
      (svcJumpProb p) (svcMaxDispKm p) (svcInitPop p) row0 col0 (draws t) D)
    (svcInitPop p * 0.5) 0 (svcTimesteps p) D0

/-- One full utility step: growth, dispersal, optional flight jump;
`none` when the jump stage raises. -/
def stepUtil (h w : ℕ) (rad : ℤ) (K : ℤ → ℤ → ℝ) (suit barrier : Grid)
    (r dt : ℝ) (mobility : String) (frac : ℝ)
    (cells : ℕ → ℤ × ℤ) (D : Grid) : Option Grid :=
  let D2 := clipGrid h w (growthStepUtil r dt suit D)
  let Dn := clipGrid h w (disperseStep rad K suit barrier D2)
  jumpUtil mobility frac h w cells Dn

/-- The utility step loop: a failing step aborts the whole call (the
Python exception propagates out of `run_dynamic_simulation`). -/
def runUtilAux (step : ℕ → Grid → Option Grid) (threshold : ℝ) :
    ℕ → ℕ → Grid → Option (List OccGrid)
  | _, 0, _ => some []
  | t, n + 1, D =>
      match step t D with
      | none => none
      | some Dn =>
          match runUtilAux step threshold (t + 1) n Dn with
          | none => none
          | some rest => some (occGrid threshold Dn :: rest)

/-- Utility initial density: `i0, j0 = h // 2, w // 2` (a placeholder —
the centroid is computed but unused) and `D[i0, j0] = init_pop` with no
bounds check. -/
def seedDensityUtil (h w : ℕ) (initPop : ℝ) : Grid :=
  fun i j => if i = (h / 2 : ℕ) ∧ j = (w / 2 : ℕ) then initPop else 0

/-- `run_dynamic_simulation` of the utility variant: the centroid is
ignored and the seed is placed at the grid center `(h // 2, w // 2)`
with no bounds check.  `cells t` is the stream of random jump targets
drawn at step `t`; `none` when some step raises. -/
def runUtility (p : SpeciesParams) (suit barrier : Grid) (h w : ℕ)
    (cells : ℕ → ℕ → ℤ × ℤ) : Option (List OccGrid) :=
  let r := utilGrowthRate p
  let mobility := utilMobility p
  let sigmaM := p.dispersalKernel.getD 500
  let initPop := p.initial_population.getD 0.01
  let rad := radUtil sigmaM
  let K := kernelUtil mobility sigmaM
  let D0 : Grid := seedDensityUtil h w initPop
  runUtilAux
    (fun t D => stepUtil h w rad K suit barrier r (p.dt_years.getD 1.0)
      mobility (utilJumpFrac p) (cells t) D)
    (initPop * 0.5) 0 (p.timesteps.getD 20) D0

end

/-! ## Helper lemmas -/

theorem clip01_nonneg (x : ℝ) : 0 ≤ clip01 x :=
  le_min (le_max_right x 0) zero_le_one

theorem clip01_le_one (x : ℝ) : clip01 x ≤ 1 :=
  min_le_right _ _

/-- Evaluate `pyInt` at a concrete value: either the floor bracketing for
a nonnegative argument or the ceiling bracketing for a negative one. -/
theorem pyInt_eval (x : ℝ) (z : ℤ)
    (h : ((z : ℝ) ≤ x ∧ x < z + 1 ∧ 0 ≤ x) ∨
      ((z : ℝ) - 1 < x ∧ x ≤ z ∧ x < 0)) : pyInt x = z := by
  rcases h with ⟨h1, h2, h3⟩ | ⟨h1, h2, h3⟩
  · rw [pyInt, if_pos h3, Int.floor_eq_iff]
    exact ⟨h1, h2⟩
  · rw [pyInt, if_neg (not_le.mpr h3), Int.ceil_eq_iff]
    exact ⟨by linarith, h2⟩

/-- The per-step loop emits exactly one occupancy grid per step. -/
theorem runAux_length (step : ℕ → Grid → Grid) (th : ℝ) (n : ℕ) :
    ∀ (t : ℕ) (D : Grid), (runAux step th t n D).length = n := by
  induction n with
  | zero => intro t D; rfl
  | succ n ih => intro t D; simp [runAux, ih]

/-- `codeToCat` maps a code to the water category exactly for code 80. -/
theorem codeToCat_eq_water (c : ℤ) : codeToCat c = some "water" ↔ c = 80 := by
  unfold codeToCat
  split_ifs <;> simp_all <;> omega

theorem pyInt_nonneg (x : ℝ) (h : 0 ≤ x) : 0 ≤ pyInt x := by
  rw [pyInt, if_pos h]
  exact Int.floor_nonneg.mpr h

theorem kernOffsets_nonempty (rad : ℤ) (h : 0 ≤ rad) :
    (kernOffsets rad).Nonempty :=
  Finset.nonempty_Icc.mpr (by omega)

/-- A double sum of pointwise-positive terms over nonempty windows is
positive. -/
theorem sum_sum_pos (s t : Finset ℤ) (f : ℤ → ℤ → ℝ) (hs : s.Nonempty)
    (ht : t.Nonempty) (hf : ∀ p q, 0 < f p q) :
    0 < ∑ p ∈ s, ∑ q ∈ t, f p q := by
  apply Finset.sum_pos _ hs
  intro p _
  exact Finset.sum_pos (fun q _ => hf p q) ht

/-- Dividing every entry of a table by the table total gives sum 1
whenever the total is nonzero (the `kernel /= kernel.sum()` step). -/
theorem normalized_sum (s t : Finset ℤ) (f : ℤ → ℤ → ℝ)
    (h : (∑ p ∈ s, ∑ q ∈ t, f p q) ≠ 0) :
    (∑ p ∈ s, ∑ q ∈ t, f p q / (∑ p ∈ s, ∑ q ∈ t, f p q)) = 1 := by
  simp only [div_eq_mul_inv, ← Finset.sum_mul]
  exact mul_inv_cancel₀ h

theorem gaussSum_pos (s : ℝ) (rad : ℤ) (h : 0 ≤ rad) :
    0 < gaussSum s rad :=
  sum_sum_pos _ _ _ (kernOffsets_nonempty rad h) (kernOffsets_nonempty rad h)
    (fun _ _ => Real.exp_pos _)

/-- The normalized Gaussian kernel sums to 1 over its window. -/
theorem baseKernel_sum (s : ℝ) (rad : ℤ) (h : 0 ≤ rad) :
    (∑ dp ∈ kernOffsets rad, ∑ dq ∈ kernOffsets rad,
      baseKernel s rad dp dq) = 1 :=
  normalized_sum _ _ _ (ne_of_gt (gaussSum_pos s rad h))

theorem baseKernel_nonneg (s : ℝ) (rad : ℤ) (h : 0 ≤ rad) (dp dq : ℤ) :
    0 ≤ baseKernel s rad dp dq :=
  div_nonneg (le_of_lt (Real.exp_pos _)) (le_of_lt (gaussSum_pos s rad h))

theorem radSvc_ge_one (m : String) (sigmaM : ℝ) : 1 ≤ radSvc m sigmaM :=
  le_max_right _ 1

/-! ## Claim C6 -/

/-- Claim C6 (amended): for every σ > 0 both variants build a kernel
that sums to exactly 1 (including the blended flight kernel), and the
service variant clamps the kernel radius to at least 1; the utility
variant leaves the radius unclamped (it can be 0) yet still never
fails. -/
theorem claim6_kernel_normalization (sigmaM : ℝ) (m : String)
    (hσ : 0 < sigmaM) :
    1 ≤ radSvc m sigmaM ∧
    (∑ dp ∈ kernOffsets (radSvc m sigmaM),
      ∑ dq ∈ kernOffsets (radSvc m sigmaM), kernelSvc m sigmaM dp dq) = 1 ∧
    0 ≤ radUtil sigmaM ∧
    (∑ dp ∈ kernOffsets (radUtil sigmaM),
      ∑ dq ∈ kernOffsets (radUtil sigmaM),
        baseKernel (sigmaM / pixSize) (radUtil sigmaM) dp dq) = 1 ∧
    (∑ dp ∈ kernOffsets (radUtil sigmaM),
      ∑ dq ∈ kernOffsets (radUtil sigmaM),
        kernelUtil "flight" sigmaM dp dq) = 1 := by
  have hradu : 0 ≤ radUtil sigmaM := by
    apply pyInt_nonneg
    have : 0 < pixSize := by norm_num [pixSize]
    positivity
  refine ⟨radSvc_ge_one m sigmaM, ?_, hradu, ?_, ?_⟩
  · exact baseKernel_sum _ _ (le_trans zero_le_one (radSvc_ge_one m sigmaM))
  · exact baseKernel_sum _ _ hradu
  · have hblend : 0 < blendSumUtil sigmaM := by
      apply sum_sum_pos _ _ _ (kernOffsets_nonempty _ hradu)
        (kernOffsets_nonempty _ hradu)
      intro p q
      have h1 := baseKernel_nonneg (sigmaM / pixSize) (radUtil sigmaM) hradu p q
      have h2 : 0 < baseKernel (sigmaM / pixSize * 3) (radUtil sigmaM) p q :=
        div_pos (Real.exp_pos _) (gaussSum_pos _ _ hradu)
      unfold blendRawUtil
      nlinarith
    show (∑ dp ∈ kernOffsets (radUtil sigmaM),
      ∑ dq ∈ kernOffsets (radUtil sigmaM),
        (if ("flight" : String) = "flight" then
          fun dp dq => blendRawUtil sigmaM dp dq / blendSumUtil sigmaM
        else baseKernel (sigmaM / pixSize) (radUtil sigmaM)) dp dq) = 1
    rw [if_pos rfl]
    exact normalized_sum _ _ _ (ne_of_gt hblend)

/-- Witness for C6 at σ = 100 m, mobility `"terrestrial"`. -/
theorem claim6_kernel_normalization_witness :
    1 ≤ radSvc "terrestrial" 100 ∧
    (∑ dp ∈ kernOffsets (radSvc "terrestrial" 100),
      ∑ dq ∈ kernOffsets (radSvc "terrestrial" 100),
        kernelSvc "terrestrial" 100 dp dq) = 1 ∧
    0 ≤ radUtil 100 ∧
    (∑ dp ∈ kernOffsets (radUtil 100),
      ∑ dq ∈ kernOffsets (radUtil 100),
        baseKernel ((100 : ℝ) / pixSize) (radUtil 100) dp dq) = 1 ∧
    (∑ dp ∈ kernOffsets (radUtil 100),
      ∑ dq ∈ kernOffsets (radUtil 100), kernelUtil "flight" 100 dp dq) = 1 :=
  claim6_kernel_normalization 100 "terrestrial" (by norm_num)

/-- Counterexample to C6 as stated: at σ = 30 m the utility variant
computes radius `int(3 * 30 / 100) = 0`; the radius is not clamped to a
minimum of 1 there. -/
theorem claim6_counterexample : radUtil 30 = 0 ∧ ¬ 1 ≤ radUtil 30 := by
  have h : radUtil 30 = 0 := by
    rw [radUtil]
    exact pyInt_eval _ 0 (Or.inl (by norm_num [pixSize]))
  exact ⟨h, by rw [h]; decide⟩

/-! ## Claim C10 -/

/-- Claim C10: the service variant doubles σ exactly for mobility
`"aerial"` and never otherwise widens the kernel, while the utility
variant blends the base kernel with a 3σ-wide kernel at ratio 0.8/0.2
exactly for mobility `"flight"`; at σ = 100 m the service aerial radius
is 6 pixels versus 3 in every other case. -/
theorem claim10_mobility_policies (sigmaM : ℝ) :
    kernelSvc "aerial" sigmaM =
      baseKernel (sigmaM * 2.0 / pixSize)
        (max (pyInt (3 * (sigmaM * 2.0 / pixSize))) 1) ∧
    (∀ m : String, m ≠ "aerial" →
      kernelSvc m sigmaM =
        baseKernel (sigmaM / pixSize)
          (max (pyInt (3 * (sigmaM / pixSize))) 1)) ∧
    (∀ dp dq : ℤ,
      kernelUtil "flight" sigmaM dp dq =
        blendRawUtil sigmaM dp dq / blendSumUtil sigmaM) ∧
    (∀ m : String, m ≠ "flight" →
      kernelUtil m sigmaM = baseKernel (sigmaM / pixSize) (radUtil sigmaM)) ∧
    radSvc "aerial" 100 = 6 ∧ radSvc "flight" 100 = 3 ∧
    radSvc "terrestrial" 100 = 3 ∧ radUtil 100 = 3 := by
  have h6 : pyInt ((6 : ℝ)) = 6 := pyInt_eval _ 6 (Or.inl (by norm_num))
  have h3 : pyInt ((3 : ℝ)) = 3 := pyInt_eval _ 3 (Or.inl (by norm_num))
  refine ⟨?_, ?_, ?_, ?_, ?_, ?_, ?_, ?_⟩
  · simp [kernelSvc, radSvc, sigmaEffSvc]
  · intro m hm; simp [kernelSvc, radSvc, sigmaEffSvc, hm]
  · intro dp dq; simp [kernelUtil]
  · intro m hm; simp [kernelUtil, hm]
  · norm_num [radSvc, sigmaEffSvc, pixSize]
    rw [h6]; decide
  · have hfa : ("flight" : String) ≠ "aerial" := by decide
    norm_num [radSvc, sigmaEffSvc, hfa, pixSize]
    rw [h3]; decide
  · have hta : ("terrestrial" : String) ≠ "aerial" := by decide
    norm_num [radSvc, sigmaEffSvc, hta, pixSize]
    rw [h3]; decide
  · norm_num [radUtil, pixSize]
    rw [h3]

/-- Witness for C10 at σ = 100, mobilities `"terrestrial"` and
`"ground"`. -/
theorem claim10_mobility_policies_witness :
    kernelSvc "terrestrial" 100 =
      baseKernel ((100 : ℝ) / pixSize)
        (max (pyInt (3 * ((100 : ℝ) / pixSize))) 1) ∧
    kernelUtil "ground" 100 = baseKernel ((100 : ℝ) / pixSize) (radUtil 100) :=
  ⟨(claim10_mobility_policies 100).2.1 "terrestrial" (by decide),
   (claim10_mobility_policies 100).2.2.2.1 "ground" (by decide)⟩

/-! ## Claim C8 -/

/-- A value at or below -1 truncates to a negative Python int. -/
theorem pyInt_neg_of_le (x : ℝ) (hx : x ≤ -1) : pyInt x < 0 := by
  rw [pyInt, if_neg (by linarith : ¬ 0 ≤ x)]
  have hc : ⌈x⌉ ≤ -1 := Int.ceil_le.mpr (by push_cast; linarith)
  omega

/-- When every step succeeds, the utility loop emits exactly one
occupancy grid per step. -/
theorem runUtilAux_length (step : ℕ → Grid → Option Grid) (th : ℝ)
    (hstep : ∀ t D, ∃ Dn, step t D = some Dn) (n : ℕ) :
    ∀ (t : ℕ) (D : Grid), ∃ out,
      runUtilAux step th t n D = some out ∧ out.length = n := by
  induction n with
  | zero => intro t D; exact ⟨[], rfl, rfl⟩
  | succ n ih =>
      intro t D
      obtain ⟨Dn, hDn⟩ := hstep t D
      obtain ⟨rest, hrest, hlen⟩ := ih (t + 1) Dn
      exact ⟨occGrid th Dn :: rest, by simp [runUtilAux, hDn, hrest],
        by simp [hlen]⟩

/-- Claim C8 (amended): the service variant always returns exactly `T`
occupancy grids (the empty sequence for `timesteps = 0`, with no
error); the utility variant returns the empty sequence for
`timesteps = 0` and exactly `T` grids whenever long-distance jumps are
disabled (mobility other than `"flight"`, or jump fraction ≤ 0) — but
its jump stage can raise `ValueError` mid-run when the grid total goes
negative (see the counterexample), so it does not always return `T`
grids. -/
theorem claim8_simulate_length (p : SpeciesParams) (suit barrier : Grid)
    (h w : ℕ) (tr : Affine) (cx cy : ℝ) (draws : ℕ → ℝ × ℝ × ℝ)
    (cells : ℕ → ℕ → ℤ × ℤ) :
    (runService p suit barrier h w tr cx cy draws).length = svcTimesteps p ∧
    (p.timesteps = some 0 →
      runService p suit barrier h w tr cx cy draws = []) ∧
    (p.timesteps = some 0 →
      runUtility p suit barrier h w cells = some []) ∧
    (utilMobility p ≠ "flight" ∨ utilJumpFrac p ≤ 0 →
      (runUtility p suit barrier h w cells).map List.length =
        some (p.timesteps.getD 20)) := by
  refine ⟨runAux_length _ _ _ _ _, ?_, ?_, ?_⟩
  · intro h0
    show runAux _ _ 0 (svcTimesteps p) _ = []
    rw [svcTimesteps, h0]
    rfl
  · intro h0
    show runUtilAux _ _ 0 (p.timesteps.getD 20) _ = some []
    rw [h0]
    rfl
  · intro hdis
    have hjump : ∀ (ck : ℕ → ℤ × ℤ) (D : Grid),
        jumpUtil (utilMobility p) (utilJumpFrac p) h w ck D = some D := by
      intro ck D
      rw [jumpUtil, if_neg]
      intro hc
      rcases hdis with hm | hf
      · exact hm hc.1
      · exact absurd hc.2 (not_lt.mpr hf)
    have hstep : ∀ (t : ℕ) (D : Grid), ∃ Dn,
        stepUtil h w (radUtil (p.dispersalKernel.getD 500))
          (kernelUtil (utilMobility p) (p.dispersalKernel.getD 500))
          suit barrier (utilGrowthRate p) (p.dt_years.getD 1.0)
          (utilMobility p) (utilJumpFrac p) (cells t) D = some Dn := by
      intro t D
      exact ⟨_, hjump (cells t) _⟩
    obtain ⟨out, hout, hlen⟩ :=
      runUtilAux_length _ ((p.initial_population.getD 0.01) * 0.5) hstep
        (p.timesteps.getD 20) 0 (seedDensityUtil h w
          (p.initial_population.getD 0.01))
    show (runUtilAux _ _ 0 (p.timesteps.getD 20) _).map List.length = _
    rw [hout]
    simp [hlen]

/-- Witness for C8 at a concrete record with `timesteps = 0` and the
default (non-flight) mobility. -/
theorem claim8_simulate_length_witness :
    runService
      ⟨none, none, none, none, none, some 0, none, none, none, none, none,
        none⟩
      (fun _ _ => 0) (fun _ _ => 0) 1 1 ⟨1, 0, -1, 0⟩ 0 0
      (fun _ => (0, 0, 0)) = [] ∧
    runUtility
      ⟨none, none, none, none, none, some 0, none, none, none, none, none,
        none⟩
      (fun _ _ => 0) (fun _ _ => 0) 1 1 (fun _ _ => ((0 : ℤ), (0 : ℤ)))
      = some [] ∧
    (runUtility
      ⟨none, none, none, none, none, some 0, none, none, none, none, none,
        none⟩
      (fun _ _ => 0) (fun _ _ => 0) 1 1
      (fun _ _ => ((0 : ℤ), (0 : ℤ)))).map List.length = some 0 := by
  have hmain := claim8_simulate_length
    ⟨none, none, none, none, none, some 0, none, none, none, none, none,
      none⟩
    (fun _ _ => 0) (fun _ _ => 0) 1 1 ⟨1, 0, -1, 0⟩ 0 0
    (fun _ => (0, 0, 0)) (fun _ _ => ((0 : ℤ), (0 : ℤ)))
  exact ⟨hmain.2.1 rfl, hmain.2.2.1 rfl, hmain.2.2.2 (Or.inl (by decide))⟩

/-! ## Claim C9 -/

/-- Claim C9 (amended): missing parameter entries are silently replaced
by the built-in defaults — in the service variant 0.1 / 500 / 0.0 /
0.01 / 20 / 1.0 / `"terrestrial"`, while the utility variant defaults
mobility to `"ground"` and reads the jump fraction from
`long_distance_fraction` — and the step loop runs to completion on any
record (no validation failure). -/
theorem claim9_parameter_defaults :
    svcGrowthRate emptyParams = 0.1 ∧ svcSigmaM emptyParams = 500 ∧
    svcJumpProb emptyParams = 0 ∧ svcInitPop emptyParams = 0.01 ∧
    svcTimesteps emptyParams = 20 ∧ svcDt emptyParams = 1 ∧
    svcMobility emptyParams = "terrestrial" ∧
    utilGrowthRate emptyParams = 0.1 ∧ utilMobility emptyParams = "ground" ∧
    utilJumpFrac emptyParams = 0 ∧
    ∀ (p : SpeciesParams) (suit barrier : Grid) (h w : ℕ) (tr : Affine)
      (cx cy : ℝ) (draws : ℕ → ℝ × ℝ × ℝ),
      (runService p suit barrier h w tr cx cy draws).length =
        svcTimesteps p := by
  refine ⟨rfl, rfl, by norm_num [svcJumpProb, emptyParams], rfl, rfl,
    by norm_num [svcDt, emptyParams], rfl, rfl, rfl,
    by norm_num [utilJumpFrac, emptyParams], ?_⟩
  intro p suit barrier h w tr cx cy draws
  exact runAux_length _ _ _ _ _

/-- Counterexample to C9 as stated: the utility variant does not default
a missing mobility entry to `"terrestrial"`. -/
theorem claim9_counterexample :
    utilMobility emptyParams = "ground" ∧ "ground" ≠ "terrestrial" :=
  ⟨rfl, by decide⟩

/-! ## Claim C2 -/

/-- Claim C2 (amended): the barrier grid is 1.0 exactly at
permanent-water pixels (code 80), 0.7 exactly at code-60 pixels — a code
the category table does not map to urban; the urban code 50 gets 0.0 —
and 0.0 everywhere else. -/
theorem claim2_barrier_rule (cls : ClassGrid) (i j : ℤ) :
    (buildBarrier cls i j = 1 ↔ codeToCat (cls i j) = some "water") ∧
    (buildBarrier cls i j = 0.7 ↔ cls i j = 60) ∧
    (cls i j ≠ 80 ∧ cls i j ≠ 60 → buildBarrier cls i j = 0) := by
  rw [codeToCat_eq_water]
  unfold buildBarrier
  split_ifs with h1 h2 <;> norm_num <;> simp_all

/-- Witness for C2 at a class code outside the barrier table. -/
theorem claim2_barrier_rule_witness :
    buildBarrier (fun _ _ => 0) 0 0 = 0 :=
  (claim2_barrier_rule (fun _ _ => 0) 0 0).2.2 (by decide)

/-- Counterexample to C2 as stated: the urban pixels (code 50, the code
the category table maps to `"urban"`) get barrier 0.0, not 0.7, while
code 60 — absent from the category table — gets 0.7. -/
theorem claim2_counterexample :
    codeToCat 50 = some "urban" ∧ buildBarrier (fun _ _ => 50) 0 0 = 0 ∧
    codeToCat 60 = none ∧ buildBarrier (fun _ _ => 60) 0 0 = 0.7 := by
  refine ⟨by decide, ?_, by decide, ?_⟩ <;> norm_num [buildBarrier]

/-! ## Claim C5 -/

/-- Claim C5: for all species parameters and input grids, every pixel of
both suitability variants and of the barrier grid lies in `[0, 1]`. -/
theorem claim5_unit_interval (p : SpeciesParams) (cls : ClassGrid)
    (elev b1 b5 b6 b12 b15 : Grid) (i j : ℤ) :
    (0 ≤ suitabilitySvc p cls elev b1 b5 b6 b12 b15 i j ∧
      suitabilitySvc p cls elev b1 b5 b6 b12 b15 i j ≤ 1) ∧
    (0 ≤ suitabilityUtil cls elev b1 b5 b6 b12 b15 i j ∧
      suitabilityUtil cls elev b1 b5 b6 b12 b15 i j ≤ 1) ∧
    (0 ≤ buildBarrier cls i j ∧ buildBarrier cls i j ≤ 1) := by
  refine ⟨⟨?_, ?_⟩, ⟨?_, ?_⟩, ?_, ?_⟩
  · exact clip01_nonneg _
  · exact clip01_le_one _
  · exact clip01_nonneg _
  · exact clip01_le_one _
  · unfold buildBarrier; split_ifs <;> norm_num
  · unfold buildBarrier; split_ifs <;> norm_num

/-! ## Claim C1 -/

/-- Claim C1 (amended): the utility growth stage computes exactly
`D2 = D + r * D * (1 - D / (suitability + ε)) * dt` with ε = 1e-6; the
service growth stage additionally scales the increment by suitability,
and the two agree wherever suitability = 1. -/
theorem claim1_growth_formula (r dt : ℝ) (suit D : Grid) (i j : ℤ) :
    growthStepUtil r dt suit D i j = specGrowthStep r dt suit D i j ∧
    growthStepSvc r dt suit D i j - D i j =
      suit i j * (specGrowthStep r dt suit D i j - D i j) ∧
    (suit i j = 1 →
      growthStepSvc r dt suit D i j = specGrowthStep r dt suit D i j) := by
  refine ⟨rfl, ?_, ?_⟩
  · unfold growthStepSvc specGrowthStep
    ring
  · intro h1
    unfold growthStepSvc specGrowthStep
    rw [h1]
    ring

/-- Witness for C1 at suitability 1. -/
theorem claim1_growth_formula_witness :
    growthStepSvc 1 1 (fun _ _ => 1) (fun _ _ => 1) 0 0 =
      specGrowthStep 1 1 (fun _ _ => 1) (fun _ _ => 1) 0 0 :=
  (claim1_growth_formula 1 1 (fun _ _ => 1) (fun _ _ => 1) 0 0).2.2 rfl

/-- Counterexample to C1 as stated: at suitability 1/2, density 1/4,
r = 1/10, dt = 1, the service growth stage does not produce the value
of the specified formula (its increment carries an extra suitability
factor). -/
theorem claim1_counterexample :
    growthStepSvc (1/10) 1 (fun _ _ => 1/2) (fun _ _ => 1/4) 0 0 ≠
      specGrowthStep (1/10) 1 (fun _ _ => 1/2) (fun _ _ => 1/4) 0 0 := by
  norm_num [growthStepSvc, specGrowthStep, eps]

/-! ## Claim C3 -/

/-- Claim C3 (amended): the service seeds only at step 0 from the
polygon centroid via the affine transform using Python `int`
(truncation toward zero), which coincides with the specified floor when
the pixel quotients are nonnegative; with the truncated indices in
bounds, step-0 density at the seed pixel is `initialPopulation` and
occupancy is 1, and out of bounds the run starts from an all-zero field
with no error.  The utility variant instead ignores the centroid and
seeds the grid-center pixel `(h / 2, w / 2)`. -/
theorem claim3_seeding (h w : ℕ) (tr : Affine) (cx cy initPop : ℝ) :
    (inBounds h w (svcRow0 tr cy) (svcCol0 tr cx) →
      seedDensity h w (svcRow0 tr cy) (svcCol0 tr cx) initPop
        (svcRow0 tr cy) (svcCol0 tr cx) = initPop ∧
      seedOcc h w (svcRow0 tr cy) (svcCol0 tr cx)
        (svcRow0 tr cy) (svcCol0 tr cx) = 1) ∧
    (¬ inBounds h w (svcRow0 tr cy) (svcCol0 tr cx) →
      ∀ i j, seedDensity h w (svcRow0 tr cy) (svcCol0 tr cx) initPop i j
        = 0) ∧
    (0 ≤ (cx - tr.c) / tr.a → svcCol0 tr cx = specCol0 tr cx) ∧
    (0 ≤ (tr.f - cy) / |tr.e| → svcRow0 tr cy = specRow0 tr cy) ∧
    seedDensityUtil h w initPop (h / 2 : ℕ) (w / 2 : ℕ) = initPop := by
  refine ⟨?_, ?_, ?_, ?_, ?_⟩
  · intro hb
    constructor
    · rw [seedDensity, if_pos ⟨hb, rfl, rfl⟩]
    · rw [seedOcc, if_pos ⟨hb, rfl, rfl⟩]
  · intro hb i j
    rw [seedDensity]
    rw [if_neg]
    intro hcon
    exact hb hcon.1
  · intro hq
    rw [svcCol0, pyInt, if_pos hq]
    rfl
  · intro hq
    rw [svcRow0, pyInt, if_pos hq]
    rfl
  · rw [seedDensityUtil, if_pos ⟨rfl, rfl⟩]

/-- Witness for C3: a 4×4 grid with unit pixels, origin 0; an in-bounds
centroid (1/2, -1/2) seeds pixel (0, 0), and an out-of-bounds centroid
(9/2, -1/2) leaves the field all zero. -/
theorem claim3_seeding_witness :
    seedDensity 4 4 (svcRow0 ⟨1, 0, -1, 0⟩ (-(1/2)))
      (svcCol0 ⟨1, 0, -1, 0⟩ (1/2)) (1/100)
      (svcRow0 ⟨1, 0, -1, 0⟩ (-(1/2))) (svcCol0 ⟨1, 0, -1, 0⟩ (1/2))
      = 1/100 ∧
    seedOcc 4 4 (svcRow0 ⟨1, 0, -1, 0⟩ (-(1/2)))
      (svcCol0 ⟨1, 0, -1, 0⟩ (1/2))
      (svcRow0 ⟨1, 0, -1, 0⟩ (-(1/2))) (svcCol0 ⟨1, 0, -1, 0⟩ (1/2)) = 1 ∧
    svcCol0 ⟨1, 0, -1, 0⟩ (1/2) = specCol0 ⟨1, 0, -1, 0⟩ (1/2) ∧
    svcRow0 ⟨1, 0, -1, 0⟩ (-(1/2)) = specRow0 ⟨1, 0, -1, 0⟩ (-(1/2)) ∧
    seedDensity 4 4 (svcRow0 ⟨1, 0, -1, 0⟩ (-(1/2)))
      (svcCol0 ⟨1, 0, -1, 0⟩ (9/2)) (1/100) 1 2 = 0 ∧
    seedDensityUtil 4 4 (1/100) 2 2 = 1/100 := by
  have hr : svcRow0 ⟨1, 0, -1, 0⟩ (-(1/2)) = 0 := by
    rw [svcRow0]
    exact pyInt_eval _ 0 (Or.inl (by norm_num))
  have hc : svcCol0 ⟨1, 0, -1, 0⟩ (1/2) = 0 := by
    rw [svcCol0]
    exact pyInt_eval _ 0 (Or.inl (by norm_num))
  have hc4 : svcCol0 ⟨1, 0, -1, 0⟩ (9/2) = 4 := by
    rw [svcCol0]
    exact pyInt_eval _ 4 (Or.inl (by norm_num))
  have hmain := claim3_seeding 4 4 ⟨1, 0, -1, 0⟩ (1/2) (-(1/2)) (1/100)
  have hb : inBounds 4 4 (svcRow0 ⟨1, 0, -1, 0⟩ (-(1/2)))
      (svcCol0 ⟨1, 0, -1, 0⟩ (1/2)) := by
    rw [hr, hc]; decide
  have hmain2 := claim3_seeding 4 4 ⟨1, 0, -1, 0⟩ (9/2) (-(1/2)) (1/100)
  have hb2 : ¬ inBounds 4 4 (svcRow0 ⟨1, 0, -1, 0⟩ (-(1/2)))
      (svcCol0 ⟨1, 0, -1, 0⟩ (9/2)) := by
    rw [hr, hc4]; decide
  exact ⟨(hmain.1 hb).1, (hmain.1 hb).2, hmain.2.2.1 (by norm_num),
    hmain.2.2.2.1 (by norm_num), hmain2.2.1 hb2 1 2,
    hmain.2.2.2.2⟩

/-- Counterexample to C3 as stated: centroid (-1/2, -1/2) with origin 0
and unit pixels.  The specified floor rule gives seed column -1 — out
of bounds, so by the claim the run must start all-zero — yet the code
truncates toward zero, seeds pixel (0, 0), and the step-0 field holds
1/100 ≠ 0 there. -/
theorem claim3_counterexample :
    specCol0 ⟨1, 0, -1, 0⟩ (-(1/2)) = -1 ∧
    svcCol0 ⟨1, 0, -1, 0⟩ (-(1/2)) = 0 ∧
    svcRow0 ⟨1, 0, -1, 0⟩ (-(1/2)) = 0 ∧
    seedDensity 4 4 (svcRow0 ⟨1, 0, -1, 0⟩ (-(1/2)))
      (svcCol0 ⟨1, 0, -1, 0⟩ (-(1/2))) (1/100) 0 0 = 1/100 ∧
    (1/100 : ℝ) ≠ 0 := by
  have hr : svcRow0 ⟨1, 0, -1, 0⟩ (-(1/2)) = 0 := by
    rw [svcRow0]
    exact pyInt_eval _ 0 (Or.inl (by norm_num))
  have hc : svcCol0 ⟨1, 0, -1, 0⟩ (-(1/2)) = 0 := by
    rw [svcCol0]
    exact pyInt_eval _ 0 (Or.inr (by norm_num))
  refine ⟨?_, hc, hr, ?_, by norm_num⟩
  · rw [specCol0, Int.floor_eq_iff]
    norm_num
  · rw [hr, hc, seedDensity, if_pos]
    exact ⟨by decide, rfl, rfl⟩

/-! ## Claim C7 -/

/-- Claim C7 (amended): in the service variant the jump fires only for
mobility `"aerial"`, at most once per step with probability `jump_prob`;
when it fires it adds the fixed increment `init_pop` at the single polar
offset sampled from the fixed seed pixel, and an out-of-bounds target is
dropped silently — the state is returned unchanged, with no error and
no re-sampling.  The utility variant implements a different policy (see
the counterexample). -/
theorem claim7_jump_semantics (mobility : String)
    (jumpProb maxDispKm initPop : ℝ) (h w : ℕ) (row0 col0 : ℤ)
    (u1 u2 u3 : ℝ) (D : Grid) :
    (mobility ≠ "aerial" →
      jumpSvc mobility jumpProb maxDispKm initPop h w row0 col0 u1 u2 u3 D
        = D) ∧
    (¬ u1 < jumpProb →
      jumpSvc mobility jumpProb maxDispKm initPop h w row0 col0 u1 u2 u3 D
        = D) ∧
    (¬ inBounds h w (jumpRow maxDispKm row0 u2 u3)
        (jumpCol maxDispKm col0 u2 u3) →
      jumpSvc mobility jumpProb maxDispKm initPop h w row0 col0 u1 u2 u3 D
        = D) ∧
    (mobility = "aerial" → u1 < jumpProb →
      inBounds h w (jumpRow maxDispKm row0 u2 u3)
        (jumpCol maxDispKm col0 u2 u3) →
      jumpSvc mobility jumpProb maxDispKm initPop h w row0 col0 u1 u2 u3 D
          (jumpRow maxDispKm row0 u2 u3) (jumpCol maxDispKm col0 u2 u3)
        = D (jumpRow maxDispKm row0 u2 u3) (jumpCol maxDispKm col0 u2 u3)
          + initPop ∧
      ∀ i j, ¬(i = jumpRow maxDispKm row0 u2 u3 ∧
          j = jumpCol maxDispKm col0 u2 u3) →
        jumpSvc mobility jumpProb maxDispKm initPop h w row0 col0 u1 u2 u3
          D i j = D i j) := by
  refine ⟨?_, ?_, ?_, ?_⟩
  · intro hm
    rw [jumpSvc, if_neg]
    intro hc
    exact hm hc.1
  · intro hu
    rw [jumpSvc, if_neg]
    intro hc
    exact hu hc.2
  · intro hob
    simp only [jumpSvc]
    by_cases h1 : mobility = "aerial" ∧ u1 < jumpProb
    · rw [if_pos h1, if_neg hob]
    · rw [if_neg h1]
  · intro hm hu hib
    simp only [jumpSvc]
    rw [if_pos (show mobility = "aerial" ∧ u1 < jumpProb from ⟨hm, hu⟩),
      if_pos hib]
    refine ⟨by simp, ?_⟩
    intro i j hij
    simp [hij]

/-- Witness for C7: on a 2×2 grid with the seed at (0, 0), an aerial
jump with draws 0 lands on the seed pixel and adds the increment there
and only there; a non-aerial mobility, a failed probability draw, or a
seed row outside the grid leave the state unchanged. -/
theorem claim7_jump_semantics_witness :
    jumpSvc "ground" 1 10 (1/100) 2 2 0 0 0 0 0 (fun _ _ => 0) =
      (fun _ _ => (0 : ℝ)) ∧
    jumpSvc "aerial" 0 10 (1/100) 2 2 0 0 1 0 0 (fun _ _ => 0) =
      (fun _ _ => (0 : ℝ)) ∧
    jumpSvc "aerial" 1 10 (1/100) 2 2 5 0 0 0 0 (fun _ _ => 0) =
      (fun _ _ => (0 : ℝ)) ∧
    jumpSvc "aerial" 1 10 (1/100) 2 2 0 0 0 0 0 (fun _ _ => 0)
      (jumpRow 10 0 0 0) (jumpCol 10 0 0 0) = 0 + 1/100 := by
  have hpy0 : pyInt 0 = 0 := pyInt_eval _ 0 (Or.inl (by norm_num))
  have hjr : jumpRow 10 0 0 0 = 0 := by
    simp only [jumpRow, zero_mul, hpy0, add_zero]
  have hjc : jumpCol 10 0 0 0 = 0 := by
    simp only [jumpCol, zero_mul, hpy0, add_zero]
  have hjr5 : jumpRow 10 5 0 0 = 5 := by
    simp only [jumpRow, zero_mul, hpy0, add_zero]
  have hjc5 : jumpCol 10 0 0 0 = 0 := hjc
  refine ⟨?_, ?_, ?_, ?_⟩
  · exact (claim7_jump_semantics "ground" 1 10 (1/100) 2 2 0 0 0 0 0
      (fun _ _ => 0)).1 (by decide)
  · exact (claim7_jump_semantics "aerial" 0 10 (1/100) 2 2 0 0 1 0 0
      (fun _ _ => 0)).2.1 (by norm_num)
  · apply (claim7_jump_semantics "aerial" 1 10 (1/100) 2 2 5 0 0 0 0
      (fun _ _ => 0)).2.2.1
    rw [hjr5, hjc5]
    decide
  · exact ((claim7_jump_semantics "aerial" 1 10 (1/100) 2 2 0 0 0 0 0
      (fun _ _ => 0)).2.2.2 rfl (by norm_num)
        (by rw [hjr, hjc]; decide)).1

/-- Counterexample to C7 as stated: the utility jump (mobility
`"flight"`, jump fraction 1) injects `int(total * frac)` increments at
uniformly drawn cells — here two distinct cells change in one single
step, so the claimed single polar-offset injection from the seed does
not describe it. -/
theorem claim7_counterexample :
    (jumpUtil "flight" 1 2 2 (fun k => ((k : ℤ), (k : ℤ)))
      (fun i _ => if i = 0 then (1 : ℝ) else 0)).map (fun g => g 0 0)
      = some 2 ∧
    (jumpUtil "flight" 1 2 2 (fun k => ((k : ℤ), (k : ℤ)))
      (fun i _ => if i = 0 then (1 : ℝ) else 0)).map (fun g => g 1 1)
      = some 1 ∧
    (fun i _ => if i = (0 : ℤ) then (1 : ℝ) else 0) 0 (0 : ℤ) = 1 ∧
    (fun i _ => if i = (0 : ℤ) then (1 : ℝ) else 0) 1 (1 : ℤ) = 0 := by
  have htot1 : gridSum 2 2 (fun i _ => if i = 0 then (1 : ℝ) else 0) * 1
      = 2 := by
    simp [gridSum, Finset.sum_range_succ]
  have hpy2 : pyInt (2 : ℝ) = 2 := pyInt_eval _ 2 (Or.inl (by norm_num))
  refine ⟨?_, ?_, by norm_num, by norm_num⟩
  · simp only [jumpUtil]
    split_ifs with h1 h2
    · rw [htot1, hpy2] at h2
      exact absurd h2 (by decide)
    · simp only [htot1, hpy2, Option.map_some']
      norm_num [Finset.sum_range_succ, Int.toNat_ofNat]
    · exact absurd ⟨by decide, by norm_num⟩ h1
  · simp only [jumpUtil]
    split_ifs with h1 h2
    · rw [htot1, hpy2] at h2
      exact absurd h2 (by decide)
    · simp only [htot1, hpy2, Option.map_some']
      norm_num [Finset.sum_range_succ, Int.toNat_ofNat]
    · exact absurd ⟨by decide, by norm_num⟩ h1

/-! ## Claim C4 -/

/-- The service kernel has nonnegative entries. -/
theorem kernelSvc_nonneg (m : String) (sigmaM : ℝ) (dp dq : ℤ) :
    0 ≤ kernelSvc m sigmaM dp dq :=
  baseKernel_nonneg _ _ (le_trans zero_le_one (radSvc_ge_one m sigmaM)) dp dq

/-- Claim C4 (amended): with long-distance jumps disabled, one service
step keeps every occupied in-bounds cell occupied — provided the step
t-1 density field lies pointwise in `[0, suitability]` (no logistic
overshoot) and the barrier field lies in `[0, 1]`.  The density proviso
is necessary: without it the logistic term can push the density
negative in one step and de-occupy the cell (see the counterexample). -/
theorem claim4_occupancy_monotone (h w : ℕ) (sigmaM : ℝ)
    (suit barrier : Grid) (r dt jumpProb maxDispKm initPop threshold : ℝ)
    (mobility : String) (row0 col0 : ℤ) (draws : ℝ × ℝ × ℝ) (D : Grid)
    (i j : ℤ)
    (hmob : mobility ≠ "aerial") (hr : 0 ≤ r) (hdt : 0 ≤ dt)
    (hD0 : ∀ a b, 0 ≤ D a b) (hDs : ∀ a b, D a b ≤ suit a b)
    (_hbar0 : ∀ a b, 0 ≤ barrier a b) (hbar1 : ∀ a b, barrier a b ≤ 1)
    (hij : inBounds h w i j) (_hbc : barrier i j = 0) (_hsc : 0 < suit i j)
    (hocc : occGrid threshold D i j = 1) :
    occGrid threshold
      (stepSvc h w (radSvc mobility sigmaM) (kernelSvc mobility sigmaM)
        suit barrier r dt mobility jumpProb maxDispKm initPop row0 col0
        draws D) i j = 1 := by
  have hth : threshold < D i j := by
    by_contra hc
    simp only [occGrid, if_neg hc] at hocc
    exact absurd hocc (by decide)
  have hsuit0 : ∀ a b, 0 ≤ suit a b := fun a b =>
    le_trans (hD0 a b) (hDs a b)
  have hgrow : ∀ a b, D a b ≤ growthStepSvc r dt suit D a b := by
    intro a b
    have h3 : (0 : ℝ) < suit a b + eps := by
      have := hsuit0 a b
      norm_num [eps]
      linarith
    have h5 : 0 ≤ 1 - D a b / (suit a b + eps) := by
      have h4 : D a b / (suit a b + eps) ≤ 1 := by
        rw [div_le_one h3]
        have := hDs a b
        norm_num [eps] at h3 ⊢
        linarith
      linarith
    have hterm : 0 ≤ r * suit a b * D a b *
        (1 - D a b / (suit a b + eps)) * dt :=
      mul_nonneg (mul_nonneg (mul_nonneg (mul_nonneg hr (hsuit0 a b))
        (hD0 a b)) h5) hdt
    simp only [growthStepSvc]
    linarith
  have hD2 : ∀ a b, 0 ≤ clipGrid h w (growthStepSvc r dt suit D) a b := by
    intro a b
    simp only [clipGrid]
    split_ifs with hab
    · exact le_trans (hD0 a b) (hgrow a b)
    · exact le_refl 0
  have hconv : 0 ≤ convSame (radSvc mobility sigmaM)
      (kernelSvc mobility sigmaM)
      (clipGrid h w (growthStepSvc r dt suit D)) i j := by
    simp only [convSame]
    apply Finset.sum_nonneg
    intro dp _
    apply Finset.sum_nonneg
    intro dq _
    exact mul_nonneg (kernelSvc_nonneg mobility sigmaM dp dq) (hD2 _ _)
  have hnext : D i j ≤ stepSvc h w (radSvc mobility sigmaM)
      (kernelSvc mobility sigmaM) suit barrier r dt mobility jumpProb
      maxDispKm initPop row0 col0 draws D i j := by
    simp only [stepSvc]
    rw [jumpSvc, if_neg (fun hc => hmob hc.1)]
    show D i j ≤ clipGrid h w (disperseStep _ _ suit barrier _) i j
    rw [clipGrid, if_pos hij]
    simp only [disperseStep]
    have hD2ij : D i j ≤ clipGrid h w (growthStepSvc r dt suit D) i j := by
      rw [clipGrid, if_pos hij]
      exact hgrow i j
    have hfac : 0 ≤ convSame (radSvc mobility sigmaM)
        (kernelSvc mobility sigmaM)
        (clipGrid h w (growthStepSvc r dt suit D)) i j * suit i j *
        (1 - barrier i j) :=
      mul_nonneg (mul_nonneg hconv (hsuit0 i j))
        (by have := hbar1 i j; linarith)
    linarith
  simp only [occGrid, if_pos (lt_of_lt_of_le hth hnext)]

/-- Witness for C4: a 1×1 grid, suitability 1/2, barrier 0, density 1/4
everywhere, threshold 1/5, growth rate 1/10, dt 1, mobility
`"terrestrial"`: the occupied cell (0, 0) stays occupied after one
step. -/
theorem claim4_occupancy_monotone_witness :
    occGrid (1/5)
      (stepSvc 1 1 (radSvc "terrestrial" 100) (kernelSvc "terrestrial" 100)
        (fun _ _ => 1/2) (fun _ _ => 0) (1/10) 1 "terrestrial" 0 10 (1/100)
        0 0 (0, 0, 0) (fun _ _ => 1/4)) 0 0 = 1 := by
  apply claim4_occupancy_monotone 1 1 100 (fun _ _ => 1/2) (fun _ _ => 0)
    (1/10) 1 0 10 (1/100) (1/5) "terrestrial" 0 0 (0, 0, 0)
    (fun _ _ => 1/4) 0 0
  · decide
  · norm_num
  · norm_num
  · intro a b; norm_num
  · intro a b; norm_num
  · intro a b; norm_num
  · intro a b; norm_num
  · decide
  · rfl
  · norm_num
  · simp only [occGrid]
    norm_num

/-- Double sums collapse to a single term when the summand vanishes
everywhere else. -/
theorem sum_sum_eq_single (s t : Finset ℤ) (f : ℤ → ℤ → ℝ) (a b : ℤ)
    (ha : a ∈ s) (hb : b ∈ t)
    (h0 : ∀ p ∈ s, ∀ q ∈ t, ¬(p = a ∧ q = b) → f p q = 0) :
    (∑ p ∈ s, ∑ q ∈ t, f p q) = f a b := by
  rw [Finset.sum_eq_single_of_mem a ha]
  · exact Finset.sum_eq_single_of_mem b hb
      (fun q hq hqb => h0 a ha q hq (fun hc => hqb hc.2))
  · intro p hp hpa
    exact Finset.sum_eq_zero (fun q hq => h0 p hp q hq (fun hc => hpa hc.1))

/-- Concrete one-pixel state for the step analysis: density 1 at
(0, 0). -/
noncomputable def oneCellD : Grid := fun i j => if i = 0 ∧ j = 0 then 1 else 0

/-- Constant suitability 1/2. -/
noncomputable def halfSuit : Grid := fun _ _ => 1/2

/-- Constant barrier 0. -/
noncomputable def zeroBar : Grid := fun _ _ => 0

/-- Counterexample to C4 as stated: on a 1×1 grid with suitability 1/2,
barrier 0, jumps disabled (mobility `"terrestrial"`), growth rate 4,
dt 1, threshold 1/2 and density 1 at the only cell, the cell is
occupied before the step but the logistic term overshoots (density 1
exceeds the carrying capacity 1/2), the density goes negative, and the
cell is de-occupied after one step. -/
theorem claim4_counterexample :
    occGrid (1/2) oneCellD 0 0 = 1 ∧ zeroBar 0 0 = 0 ∧
    (0 : ℝ) < halfSuit 0 0 ∧
    occGrid (1/2)
      (stepSvc 1 1 (radSvc "terrestrial" 100) (kernelSvc "terrestrial" 100)
        halfSuit zeroBar 4 1 "terrestrial" 0 10 1 0 0 (0, 0, 0)
        oneCellD) 0 0 = 0 := by
  have hrad3 : radSvc "terrestrial" 100 = 3 := by
    have hta : ("terrestrial" : String) ≠ "aerial" := by decide
    norm_num [radSvc, sigmaEffSvc, hta, pixSize]
    rw [pyInt_eval (3 : ℝ) 3 (Or.inl (by norm_num))]
    decide
  have hg0 : growthStepSvc 4 1 halfSuit oneCellD 0 0 = -(499997/500001) := by
    simp only [growthStepSvc, oneCellD, halfSuit, eps]
    norm_num
  have hgz : ∀ a b : ℤ, ¬(a = 0 ∧ b = 0) →
      growthStepSvc 4 1 halfSuit oneCellD a b = 0 := by
    intro a b hab
    simp only [growthStepSvc, oneCellD, halfSuit, if_neg hab]
    ring
  have hD200 : clipGrid 1 1 (growthStepSvc 4 1 halfSuit oneCellD) 0 0 =
      -(499997/500001) := by
    rw [clipGrid, if_pos (by decide)]
    exact hg0
  have hD2z : ∀ a b : ℤ, ¬(a = 0 ∧ b = 0) →
      clipGrid 1 1 (growthStepSvc 4 1 halfSuit oneCellD) a b = 0 := by
    intro a b hab
    rw [clipGrid]
    split_ifs with hib
    · exact hgz a b hab
    · rfl
  have hK : 0 < kernelSvc "terrestrial" 100 0 0 := by
    show (0 : ℝ) < gauss (sigmaEffSvc "terrestrial" 100 / pixSize) 0 0 /
      gaussSum (sigmaEffSvc "terrestrial" 100 / pixSize)
        (radSvc "terrestrial" 100)
    exact div_pos (Real.exp_pos _)
      (gaussSum_pos _ _ (le_trans zero_le_one (radSvc_ge_one _ _)))
  have hconv : convSame 3 (kernelSvc "terrestrial" 100)
      (clipGrid 1 1 (growthStepSvc 4 1 halfSuit oneCellD)) 0 0 =
      kernelSvc "terrestrial" 100 0 0 * -(499997/500001) := by
    simp only [convSame]
    rw [sum_sum_eq_single (kernOffsets 3) (kernOffsets 3) _ 0 0
      (by decide) (by decide)]
    · norm_num [hD200]
    · intro p hp q hq hpq
      have hnz : ¬((0 - p : ℤ) = 0 ∧ (0 - q : ℤ) = 0) := by
        intro hc
        exact hpq ⟨by omega, by omega⟩
      rw [hD2z _ _ hnz, mul_zero]
  have hval : clipGrid 1 1 (disperseStep (radSvc "terrestrial" 100)
      (kernelSvc "terrestrial" 100) halfSuit zeroBar
      (clipGrid 1 1 (growthStepSvc 4 1 halfSuit oneCellD))) 0 0 < 0 := by
    rw [clipGrid, if_pos (by decide)]
    simp only [disperseStep, halfSuit, zeroBar]
    rw [hrad3, hconv, hD200]
    have hKd : kernelSvc "terrestrial" 100 0 0 * -(499997/500001) < 0 :=
      mul_neg_of_pos_of_neg hK (by norm_num)
    nlinarith
  refine ⟨?_, rfl, by norm_num [halfSuit], ?_⟩
  · simp only [occGrid, oneCellD]
    norm_num
  · simp only [stepSvc]
    rw [jumpSvc, if_neg (fun hc => absurd hc.1 (by decide))]
    simp only [occGrid]
    rw [if_neg]
    intro hlt
    have := lt_trans (show (0 : ℝ) < 1/2 by norm_num) hlt
    exact absurd hval (not_lt.mpr (le_of_lt this))

/-- Counterexample to C8 as stated: a utility run with valid grids and
parameters that raises instead of returning `T` occupancy grids.  On a
1×1 grid with suitability 1/2, barrier 0, growth rate 4, dt 1, initial
population 1, mobility `"flight"` and jump fraction 1, the logistic
overshoot drives the step-0 grid total below -1, so
`n_jump = int(total * jump_frac)` is negative and
`np.random.randint(0, h, n_jump)` raises `ValueError` mid-loop: the
call yields no sequence at all (modelled as `none`), not a sequence of
length `T = 1`. -/
theorem claim8_counterexample :
    runUtility
      ⟨some 4, some 100, some "flight", none, some 1, some 1, some 1,
        none, some 1, none, none, none⟩
      halfSuit zeroBar 1 1 (fun _ _ => ((0 : ℤ), (0 : ℤ))) = none := by
  have hrad3 : radUtil 100 = 3 := by
    norm_num [radUtil, pixSize]
    exact pyInt_eval _ 3 (Or.inl (by norm_num))
  have hseed : seedDensityUtil 1 1 1 = oneCellD := by
    funext i j
    simp [seedDensityUtil, oneCellD]
  have hg0 : growthStepUtil 4 1 halfSuit oneCellD 0 0 =
      -(1499995/500001) := by
    simp only [growthStepUtil, oneCellD, halfSuit, eps]
    norm_num
  have hgz : ∀ a b : ℤ, ¬(a = 0 ∧ b = 0) →
      growthStepUtil 4 1 halfSuit oneCellD a b = 0 := by
    intro a b hab
    simp only [growthStepUtil, oneCellD, halfSuit, if_neg hab]
    ring
  have hD200 : clipGrid 1 1 (growthStepUtil 4 1 halfSuit oneCellD) 0 0 =
      -(1499995/500001) := by
    rw [clipGrid, if_pos (by decide)]
    exact hg0
  have hD2z : ∀ a b : ℤ, ¬(a = 0 ∧ b = 0) →
      clipGrid 1 1 (growthStepUtil 4 1 halfSuit oneCellD) a b = 0 := by
    intro a b hab
    rw [clipGrid]
    split_ifs with hib
    · exact hgz a b hab
    · rfl
  have hradge : (0 : ℤ) ≤ radUtil 100 := by
    rw [hrad3]
    decide
  have hbpos : 0 < blendSumUtil 100 := by
    apply sum_sum_pos _ _ _ (kernOffsets_nonempty _ hradge)
      (kernOffsets_nonempty _ hradge)
    intro p q
    have h1 := baseKernel_nonneg ((100 : ℝ) / pixSize) (radUtil 100)
      hradge p q
    have h2 : 0 < baseKernel ((100 : ℝ) / pixSize * 3) (radUtil 100) p q :=
      div_pos (Real.exp_pos _) (gaussSum_pos _ _ hradge)
    unfold blendRawUtil
    nlinarith
  have hK00 : 0 ≤ kernelUtil "flight" 100 0 0 := by
    have hkdef : kernelUtil "flight" 100 =
        fun dp dq => blendRawUtil 100 dp dq / blendSumUtil 100 :=
      if_pos rfl
    rw [hkdef]
    show 0 ≤ blendRawUtil 100 0 0 / blendSumUtil 100
    apply div_nonneg _ (le_of_lt hbpos)
    have h1 := baseKernel_nonneg ((100 : ℝ) / pixSize) (radUtil 100)
      hradge 0 0
    have h2 := baseKernel_nonneg ((100 : ℝ) / pixSize * 3) (radUtil 100)
      hradge 0 0
    unfold blendRawUtil
    nlinarith
  have hconv : convSame 3 (kernelUtil "flight" 100)
      (clipGrid 1 1 (growthStepUtil 4 1 halfSuit oneCellD)) 0 0 =
      kernelUtil "flight" 100 0 0 * -(1499995/500001) := by
    simp only [convSame]
    rw [sum_sum_eq_single (kernOffsets 3) (kernOffsets 3) _ 0 0
      (by decide) (by decide)]
    · norm_num [hD200]
    · intro p hp q hq hpq
      have hnz : ¬((0 - p : ℤ) = 0 ∧ (0 - q : ℤ) = 0) := by
        intro hc
        exact hpq ⟨by omega, by omega⟩
      rw [hD2z _ _ hnz, mul_zero]
  have hDn : clipGrid 1 1 (disperseStep (radUtil 100)
      (kernelUtil "flight" 100) halfSuit zeroBar
      (clipGrid 1 1 (growthStepUtil 4 1 halfSuit oneCellD))) 0 0 ≤ -1 := by
    rw [clipGrid, if_pos (by decide)]
    simp only [disperseStep, halfSuit, zeroBar]
    rw [hrad3, hconv, hD200]
    have hKd : kernelUtil "flight" 100 0 0 * -(1499995/500001) ≤ 0 :=
      mul_nonpos_iff.mpr (Or.inl ⟨hK00, by norm_num⟩)
    nlinarith [hKd]
  have hgs : ∀ X : Grid, gridSum 1 1 X = X 0 0 := by
    intro X
    simp [gridSum]
  have hstep : stepUtil 1 1 (radUtil 100) (kernelUtil "flight" 100)
      halfSuit zeroBar 4 1 "flight" 1 (fun _ => ((0 : ℤ), (0 : ℤ)))
      (seedDensityUtil 1 1 1) = none := by
    simp only [stepUtil, hseed, jumpUtil]
    split_ifs with h1 h2
    · rfl
    · exfalso
      apply h2
      apply pyInt_neg_of_le
      rw [mul_one, hgs]
      exact hDn
    · exact absurd ⟨by decide, by norm_num⟩ h1
  have hrun1 : ∀ (step : ℕ → Grid → Option Grid) (th : ℝ) (D : Grid),
      step 0 D = none → runUtilAux step th 0 1 D = none := by
    intro step th D hnone
    show (match step 0 D with
      | none => none
      | some Dn =>
          match runUtilAux step th 1 0 Dn with
          | none => none
          | some rest => some (occGrid th Dn :: rest)) = none
    rw [hnone]
  simp only [runUtility, utilGrowthRate, utilMobility, utilJumpFrac,
    Option.getD_some]
  exact hrun1 _ _ _ hstep

end Invasores
